import Mathlib

/-!
Shallow embedding of the motion-detection core of
`raspberry_pi_motion_detection_cam` (file `motion_detector.py`), together
with proofs about the recording state machine, the difference-history
ring, the histogram-based difference estimator and the delivery path.

Times are modelled as rationals (seconds), difference scores as rationals,
frames as lists of intensity samples.  Stateful code of the Python class
`MotionDetector` is embedded as explicit state passing: each operation
takes the relevant instance fields as a `DetectorState` and returns the
updated state together with the list of externally visible actions
(`Event`s) it performs.
-/

namespace MotionDetector

/-- Difference scores and times are rationals (the Python code uses floats). -/
abbrev Q := ℚ

/-! ## Difference history ring (`store_diff_history`, `__init__` fields) -/

/-- `self.__diff_history_count = 1000` from `__init__`. -/
def diff_history_count : Nat := 1000

/-- The body of the `for value in self.__diff_history` loop inside
`store_diff_history` when the history is at capacity: walking the old
history with a running position `pos`, a value is kept exactly when
`1 <= pos <= self.__diff_history_count - 1`. -/
def keep_from_pos (count : Nat) : Nat → List Q → List Q
  | _, [] => []
  | pos, v :: rest =>
    (if 1 ≤ pos ∧ pos ≤ count - 1 then [v] else []) ++ keep_from_pos count (pos + 1) rest

/-- `MotionDetector.store_diff_history`: if the history is at capacity the
new list is `[diff]` followed by the old values at positions
`1 .. count - 1`; otherwise the score is appended. -/
def store_diff_history (history : List Q) (diff : Q) : List Q :=
  if history.length = diff_history_count then
    diff :: keep_from_pos diff_history_count 0 history
  else
    history ++ [diff]

/-- Folding a sequence of recorded scores into an initially empty history,
as the detection loop does one call per differenced frame. -/
def run_history (scores : List Q) : List Q :=
  scores.foldl store_diff_history []

/-! ## Difference estimator (`__calculate_histogram_difference`) -/

/-- A PIL grayscale histogram has 256 bins. -/
def histogram_bins : Nat := 256

/-- `Image.histogram()` on a grayscale frame: bin `i` counts the samples
with intensity `i`. -/
def histogram (frame : List Nat) : List Nat :=
  (List.range histogram_bins).map (fun i => frame.count i)

/-- `MotionDetector.__calculate_histogram_difference`: sum of absolute
per-bin differences of the two histograms, divided by the bin count. -/
def calculate_histogram_difference (current_frame previous_frame : List Nat) : Q :=
  ((((histogram current_frame).zip (histogram previous_frame)).map
      (fun cp => |(cp.1 : ℤ) - (cp.2 : ℤ)|)).sum : ℤ) /
    ((histogram current_frame).length : Q)

/-! ## Configuration and mutable state of the detector -/

/-- The configuration surface the core logic reads (from the parsed
command-line arguments stored in `__init__`).  Credentials are `Option`s
because `argparse` leaves unset string options at `None`. -/
structure Config where
  min_pixel_diff : Q
  max_recording_length_seconds : ℤ
  snapshot_only : Bool
  delete_local_recordings : Bool
  email_username : Option String
  recipient : Option String
  email_password : Option String
deriving DecidableEq

/-- The mutable instance fields of `MotionDetector` that drive the
recording state machine. `encoding = true` is the Recording state. -/
structure DetectorState where
  encoding : Bool
  start_time_of_last_recording : Option Q
  time_of_last_motion_detection : Option Q
deriving DecidableEq

/-- The Idle state the detector starts in (`__init__`). -/
def idle_state : DetectorState :=
  { encoding := false
    start_time_of_last_recording := none
    time_of_last_motion_detection := none }

/-- `__MAX_TIME_SINCE_LAST_MOTION_DETECTION_SECONDS = 5.0`. -/
def MAX_TIME_SINCE_LAST_MOTION_DETECTION_SECONDS : Q := 5

/-- Artifact file paths are derived from the session start timestamp with
a fixed extension distinguishing video from image
(`__get_recording_file_path` / `__get_snapshot_file_path`). -/
inductive ArtifactPath where
  | video (start : Option Q)
  | snapshot (start : Option Q)
deriving DecidableEq

/-- Externally visible actions performed by the detector. -/
inductive Event where
  | startWriting (path : ArtifactPath)
  | stopWriting
  | captureSnapshot (path : ArtifactPath)
  | emailSent (path : ArtifactPath)
  | emailFailed (path : ArtifactPath)
  | deleteLocal (path : ArtifactPath)
  | logInfo
  | logError
  | movementStart
  | movementEnd
deriving DecidableEq

/-- The exception types caught by `__send_email`'s `except` clause:
`smtplib.SMTPException` and `socket.timeout`. -/
inductive SmtpError where
  | smtpException
  | socketTimeout
deriving DecidableEq

/-- `MotionDetector.__get_recording_file_path`. -/
def get_recording_file_path (s : DetectorState) : ArtifactPath :=
  ArtifactPath.video s.start_time_of_last_recording

/-- `MotionDetector.__get_snapshot_file_path`. -/
def get_snapshot_file_path (s : DetectorState) : ArtifactPath :=
  ArtifactPath.snapshot s.start_time_of_last_recording

/-! ## Time-based guards -/

/-- `MotionDetector.__is_max_recording_length_exceeded`: true when the
cap is positive, a session start exists, and elapsed time since session
start is at least the cap. -/
def is_max_recording_length_exceeded (cfg : Config) (s : DetectorState) (now : Q) : Bool :=
  decide (0 < cfg.max_recording_length_seconds) &&
    (match s.start_time_of_last_recording with
     | none => false
     | some t0 => decide ((cfg.max_recording_length_seconds : Q) ≤ now - t0))

/-- `MotionDetector.__is_max_time_since_last_motion_detection_exceeded`:
true when encoding, a last-motion time exists, and elapsed time since it
strictly exceeds the 5-second idle gap. -/
def is_max_time_since_last_motion_detection_exceeded (s : DetectorState) (now : Q) : Bool :=
  s.encoding &&
    (match s.time_of_last_motion_detection with
     | none => false
     | some tm => decide (MAX_TIME_SINCE_LAST_MOTION_DETECTION_SECONDS < now - tm))

/-! ## Recorder-sink commands and delivery -/

/-- `MotionDetector.__start_recording`: point the encoder output at the
recording file path, start writing, set the encoding flag. -/
def start_recording (s : DetectorState) : DetectorState × List Event :=
  ({ s with encoding := true }, [Event.startWriting (get_recording_file_path s)])

/-- Python truthiness of an optional string argument: `None` and the
empty string are falsy. -/
def truthy : Option String → Bool
  | none => false
  | some str => !(str == "")

/-- The body of `__send_email`'s `try` block, with the SMTP transport's
outcome supplied as an oracle: on transport failure the corresponding
exception propagates out of the block. -/
def send_email_attempt (transport : Except SmtpError Unit) (path : ArtifactPath) :
    Except SmtpError (List Event) :=
  match transport with
  | Except.ok _ => Except.ok [Event.emailSent path]
  | Except.error e => Except.error e

/-- `MotionDetector.__send_email`: the `except (SMTPException, socket.timeout)`
clause catches every transport failure and logs it, so the function always
returns normally. -/
def send_email (transport : Except SmtpError Unit) (path : ArtifactPath) : List Event :=
  match send_email_attempt transport path with
  | Except.ok evs => evs
  | Except.error _ => [Event.emailFailed path]

/-- `MotionDetector.__delete_recording`: delete the local file only when
the `--delete-local-recordings` flag is set. -/
def delete_recording (cfg : Config) (path : ArtifactPath) : List Event :=
  if cfg.delete_local_recordings then [Event.logInfo, Event.deleteLocal path] else []

/-- `MotionDetector.__upload_file`: send the email only when username,
recipient and password are all truthy, then apply the deletion policy. -/
def upload_file (cfg : Config) (transport : Except SmtpError Unit) (path : ArtifactPath) :
    List Event :=
  (if truthy cfg.email_username && truthy cfg.recipient && truthy cfg.email_password
   then send_email transport path
   else []) ++ delete_recording cfg path

/-- `MotionDetector.__write_recording_to_file`: snapshot the current
frame, stop the encoder output, hand exactly one artifact (video, or
snapshot in snapshot-only mode) to `__upload_file`, clear the encoding
flag and the session start time.  The last-motion time is not cleared. -/
def write_recording_to_file (cfg : Config) (transport : Except SmtpError Unit)
    (s : DetectorState) : DetectorState × List Event :=
  let file_path := get_recording_file_path s
  let snapshot_path := get_snapshot_file_path s
  let upload_events :=
    if cfg.snapshot_only then upload_file cfg transport snapshot_path
    else upload_file cfg transport file_path
  ({ s with encoding := false, start_time_of_last_recording := none },
   Event.captureSnapshot snapshot_path :: Event.logInfo :: Event.stopWriting :: upload_events)

/-! ## One tick of the detection loop -/

/-- The per-score part of `MotionDetector.__loop` (lines 165–180): the
branch cascade run once a histogram difference `hist_diff` has been
computed, at wall-clock time `now`. -/
def tick (cfg : Config) (transport : Except SmtpError Unit) (s : DetectorState)
    (now : Q) (hist_diff : Q) : DetectorState × List Event :=
  if decide (cfg.min_pixel_diff < hist_diff) &&
      !(is_max_recording_length_exceeded cfg s now) && !s.encoding then
    let started :=
      if !s.encoding then
        let s1 := { s with start_time_of_last_recording := some now }
        let r := start_recording s1
        (r.1, Event.logInfo :: r.2)
      else (s, ([] : List Event))
    ({ started.1 with time_of_last_motion_detection := some now },
     started.2 ++ [Event.movementStart])
  else if is_max_recording_length_exceeded cfg s now then
    let finished := write_recording_to_file cfg transport s
    (finished.1, Event.logInfo :: finished.2)
  else if is_max_time_since_last_motion_detection_exceeded s now then
    let finished := write_recording_to_file cfg transport s
    (finished.1, Event.logInfo :: Event.movementEnd :: finished.2)
  else (s, [])

/-- Running `tick` over a list of `(now, score)` pairs, accumulating the
emitted events. -/
def run_ticks (cfg : Config) (transport : Except SmtpError Unit) (s : DetectorState) :
    List (Q × Q) → DetectorState × List Event
  | [] => (s, [])
  | (now, d) :: rest =>
    let r := tick cfg transport s now d
    let r2 := run_ticks cfg transport r.1 rest
    (r2.1, r.2 ++ r2.2)

/-! ## The full loop iteration, with fallible capture -/

/-- The loop-carried state of `__loop`: the retained previous frame, the
detector fields, and the difference history. -/
structure LoopState where
  previous_frame : Option (List Nat)
  det : DetectorState
  history : List Q
deriving DecidableEq

/-- One iteration of the `while True` body of `MotionDetector.__loop`,
with the frame capture's outcome supplied as an oracle.  On an exception
the `except` clause logs the error and `continue`s: no state field is
modified.  On a successful capture with a retained previous frame, the
histogram difference is computed, recorded in the history, and fed to the
state-machine cascade; the previous frame is then replaced. -/
def loop_iteration (cfg : Config) (transport : Except SmtpError Unit) (st : LoopState)
    (capture : Except Unit (List Nat)) (now : Q) : LoopState × List Event :=
  match capture with
  | Except.error _ => (st, [Event.logError])
  | Except.ok frame =>
    match st.previous_frame with
    | none => ({ st with previous_frame := some frame }, [])
    | some prev =>
      let hist_diff := calculate_histogram_difference frame prev
      let history := store_diff_history st.history hist_diff
      let ticked := tick cfg transport st.det now hist_diff
      ({ previous_frame := some frame, det := ticked.1, history := history }, ticked.2)

/-! ## Lemmas about the difference-history ring -/

/-- Walking the old history from a position `pos ≥ 1` that stays within
`count` keeps every value. -/
theorem keep_from_pos_all (count : Nat) (l : List Q) :
    ∀ pos : Nat, 1 ≤ pos → pos + l.length ≤ count → keep_from_pos count pos l = l := by
  induction l with
  | nil => intro pos _ _; rfl
  | cons v rest ih =>
    intro pos h1 h2
    simp only [List.length_cons] at h2
    have hcond : 1 ≤ pos ∧ pos ≤ count - 1 := ⟨h1, by omega⟩
    simp only [keep_from_pos, if_pos hcond, List.singleton_append, List.cons.injEq]
    exact ⟨trivial, ih (pos + 1) (by omega) (by omega)⟩

/-- At capacity, `store_diff_history` produces the new score followed by
the old history minus its oldest (front) entry. -/
theorem store_at_capacity (h : List Q) (d : Q) (hl : h.length = diff_history_count) :
    store_diff_history h d = d :: h.tail := by
  cases h with
  | nil => simp [diff_history_count] at hl
  | cons a t =>
    simp only [List.length_cons] at hl
    simp only [store_diff_history, List.length_cons, if_pos hl, List.tail_cons,
      List.cons.injEq]
    refine ⟨trivial, ?_⟩
    show keep_from_pos diff_history_count 0 (a :: t) = t
    simp only [keep_from_pos]
    rw [if_neg (fun hc => absurd hc.1 (by omega))]
    simpa using keep_from_pos_all diff_history_count t 1 le_rfl (by omega)

/-- Below capacity, `store_diff_history` appends the score at the end. -/
theorem store_below_capacity (h : List Q) (d : Q) (hl : h.length ≠ diff_history_count) :
    store_diff_history h d = h ++ [d] := by
  simp only [store_diff_history, if_neg hl]

/-- A `store_diff_history` call never grows the history past capacity. -/
theorem store_length_le (h : List Q) (d : Q) (hle : h.length ≤ diff_history_count) :
    (store_diff_history h d).length ≤ diff_history_count := by
  by_cases hc : h.length = diff_history_count
  · rw [store_at_capacity h d hc]
    cases h with
    | nil => simp [diff_history_count] at hc
    | cons a t =>
      simp only [List.length_cons] at hc
      simp only [List.tail_cons, List.length_cons]
      omega
  · rw [store_below_capacity h d hc]
    simp only [List.length_append, List.length_singleton]
    omega

/-- While the total stays within capacity, folding scores into the
history just appends them. -/
theorem foldl_store_below :
    ∀ (l acc : List Q), acc.length + l.length ≤ diff_history_count →
      List.foldl store_diff_history acc l = acc ++ l := by
  intro l
  induction l with
  | nil => intro acc _; simp
  | cons x xs ih =>
    intro acc hlen
    simp only [List.length_cons] at hlen
    rw [List.foldl_cons, store_below_capacity acc x (by omega),
        ih (acc ++ [x]) (by simp only [List.length_append, List.length_singleton]; omega)]
    simp

/-! ## Claim theorems -/

/-- C7: the DifferenceHistory never holds more than its configured
capacity of 1000 entries — after any sequence of `store_diff_history`
calls the length is at most 1000 — and after inserting capacity+1 scores
the first-inserted score is absent from the retained window while the
last-inserted score is present. -/
theorem C7_history_never_exceeds_capacity :
    (∀ scores : List Q, (run_history scores).length ≤ diff_history_count) ∧
    (∀ (s0 slast : Q) (mid : List Q), mid.length = diff_history_count - 1 →
      s0 ∉ mid → s0 ≠ slast →
      s0 ∉ run_history (s0 :: (mid ++ [slast])) ∧
      slast ∈ run_history (s0 :: (mid ++ [slast]))) := by
  have hD : 0 < diff_history_count := by decide
  constructor
  · intro scores
    have key : ∀ (l acc : List Q), acc.length ≤ diff_history_count →
        (List.foldl store_diff_history acc l).length ≤ diff_history_count := by
      intro l
      induction l with
      | nil => intro acc h; simpa using h
      | cons x xs ih =>
        intro acc h
        rw [List.foldl_cons]
        exact ih _ (store_length_le acc x h)
    exact key scores [] (by simp)
  · intro s0 slast mid hmid hnotmem hne
    have hrun : run_history (s0 :: (mid ++ [slast])) = slast :: mid := by
      have hnil : ([] : List Q).length = 0 := rfl
      have h1 : store_diff_history [] s0 = [] ++ [s0] := store_below_capacity [] s0 (by omega)
      have h2 : List.foldl store_diff_history ([] ++ [s0]) mid = ([] ++ [s0]) ++ mid := by
        refine foldl_store_below mid ([] ++ [s0]) ?_
        simp only [List.nil_append, List.length_cons, List.length_nil]
        omega
      have h3 : store_diff_history (s0 :: mid) slast = slast :: (s0 :: mid).tail := by
        refine store_at_capacity (s0 :: mid) slast ?_
        simp only [List.length_cons]
        omega
      unfold run_history
      rw [List.foldl_cons, h1, List.foldl_append, h2]
      simp only [List.nil_append, List.singleton_append, List.foldl_cons, List.foldl_nil]
      rw [h3]
      simp
    rw [hrun]
    refine ⟨?_, List.mem_cons_self slast mid⟩
    intro hmem
    rcases List.mem_cons.mp hmem with h | h
    · exact hne h
    · exact hnotmem h

/-- Witness for C7 at a concrete capacity+1 insertion sequence. -/
theorem C7_history_never_exceeds_capacity_witness :
    (0:Q) ∉ run_history (0 :: (List.replicate 999 (1:Q) ++ [2])) ∧
    (2:Q) ∈ run_history (0 :: (List.replicate 999 (1:Q) ++ [2])) :=
  C7_history_never_exceeds_capacity.2 0 2 (List.replicate 999 1)
    (by rw [List.length_replicate]; decide) (by simp only [List.mem_replicate]; norm_num)
    (by norm_num)

set_option maxRecDepth 10000 in
/-- C8 counterexample: inserting a score into a history that is at
capacity does not append it at the end — the retained window's last
element is not the newly recorded score. -/
theorem C8_counterexample_new_score_not_at_end :
    (store_diff_history (List.replicate diff_history_count (0:Q)) 5).getLast? ≠ some 5 := by
  decide

/-- C8 (amended): below capacity `store_diff_history` appends the new
score at the end; at capacity it evicts the oldest entry but places the
new score at the front of the retained window, so insertion order
(oldest to newest) is preserved only below capacity. -/
theorem C8_append_below_capacity_front_at_capacity (h : List Q) (d : Q) :
    (h.length < diff_history_count → store_diff_history h d = h ++ [d]) ∧
    (h.length = diff_history_count → store_diff_history h d = d :: h.tail) := by
  constructor
  · intro hlt
    exact store_below_capacity h d (by omega)
  · intro heq
    exact store_at_capacity h d heq

/-- Witness for the amended C8 in both the below-capacity and
at-capacity cases. -/
theorem C8_append_below_capacity_front_at_capacity_witness :
    store_diff_history [] (3:Q) = [3] ∧
    store_diff_history (List.replicate diff_history_count (0:Q)) 5 =
      5 :: (List.replicate diff_history_count (0:Q)).tail :=
  ⟨(C8_append_below_capacity_front_at_capacity [] 3).1 (by decide),
   (C8_append_below_capacity_front_at_capacity (List.replicate diff_history_count (0:Q)) 5).2
     (by rw [List.length_replicate])⟩

/-- Zipping a list with itself and summing absolute differences of the
components gives zero. -/
theorem zip_self_abs_sum (l : List Nat) :
    ((l.zip l).map (fun cp => |(cp.1 : ℤ) - (cp.2 : ℤ)|)).sum = 0 := by
  induction l with
  | nil => rfl
  | cons a t ih => simp [List.zip_cons_cons, ih]

/-- C9: for identical frames the histogram-based difference estimator
returns 0. -/
theorem C9_identical_frames_zero_difference (frame : List Nat) :
    calculate_histogram_difference frame frame = 0 := by
  unfold calculate_histogram_difference
  rw [zip_self_abs_sum]
  simp

/-! ## Delivery-path theorems -/

/-- C10: if any of the email username, recipient, or password is unset
(falsy), `__upload_file` makes no delivery attempt at all, yet with the
delete-local-recordings flag enabled it still deletes the local artifact
file — the file is deleted without ever having been delivered. -/
theorem C10_incomplete_credentials_delete_without_delivery (cfg : Config)
    (transport : Except SmtpError Unit) (path : ArtifactPath)
    (hcreds : (truthy cfg.email_username && truthy cfg.recipient &&
        truthy cfg.email_password) = false)
    (hdel : cfg.delete_local_recordings = true) :
    upload_file cfg transport path = [Event.logInfo, Event.deleteLocal path] := by
  simp [upload_file, hcreds, delete_recording, hdel]

/-- A configuration with deletion enabled but no email username. -/
def c10_config : Config :=
  { min_pixel_diff := 7.2
    max_recording_length_seconds := 0
    snapshot_only := false
    delete_local_recordings := true
    email_username := none
    recipient := some "to"
    email_password := some "pw" }

/-- Witness for C10: missing username, deletion flag set. -/
theorem C10_incomplete_credentials_delete_without_delivery_witness :
    upload_file c10_config (Except.ok ()) (ArtifactPath.video (some 0)) =
      [Event.logInfo, Event.deleteLocal (ArtifactPath.video (some 0))] :=
  C10_incomplete_credentials_delete_without_delivery c10_config (Except.ok ())
    (ArtifactPath.video (some 0)) rfl rfl

/-- C6: with the delete-local-recordings flag enabled, `__upload_file`
requests local deletion after every delivery attempt — the deletion is
the final action for success and failure outcomes alike — and a delivery
failure is caught inside `__send_email`, producing a logged failure
rather than an exception escaping the finalization path. -/
theorem C6_delete_after_delivery_attempt (cfg : Config)
    (transport : Except SmtpError Unit) (path : ArtifactPath) (e : SmtpError)
    (hdel : cfg.delete_local_recordings = true) :
    Event.deleteLocal path ∈ upload_file cfg transport path ∧
    (∃ pre, upload_file cfg transport path = pre ++ [Event.deleteLocal path]) ∧
    send_email (Except.error e) path = [Event.emailFailed path] := by
  refine ⟨?_, ?_, rfl⟩
  · simp [upload_file, delete_recording, hdel]
  · refine ⟨(if truthy cfg.email_username && truthy cfg.recipient &&
        truthy cfg.email_password then send_email transport path else []) ++
        [Event.logInfo], ?_⟩
    simp [upload_file, delete_recording, hdel]

/-- A configuration with deletion enabled and full credentials. -/
def c6_config : Config :=
  { min_pixel_diff := 7.2
    max_recording_length_seconds := 0
    snapshot_only := false
    delete_local_recordings := true
    email_username := some "from"
    recipient := some "to"
    email_password := some "pw" }

/-- Witness for C6 on a failed delivery. -/
theorem C6_delete_after_delivery_attempt_witness :
    Event.deleteLocal (ArtifactPath.video (some 0)) ∈
      upload_file c6_config (Except.error SmtpError.smtpException) (ArtifactPath.video (some 0)) ∧
    (∃ pre, upload_file c6_config (Except.error SmtpError.smtpException)
        (ArtifactPath.video (some 0)) = pre ++ [Event.deleteLocal (ArtifactPath.video (some 0))]) ∧
    send_email (Except.error SmtpError.smtpException) (ArtifactPath.video (some 0)) =
      [Event.emailFailed (ArtifactPath.video (some 0))] :=
  C6_delete_after_delivery_attempt c6_config (Except.error SmtpError.smtpException)
    (ArtifactPath.video (some 0)) SmtpError.smtpException rfl

/-! ## State-machine theorems -/

/-- Finalizing a session never issues a `startWriting` command. -/
theorem startWriting_not_in_write_recording (cfg : Config)
    (transport : Except SmtpError Unit) (s : DetectorState) (p : ArtifactPath) :
    Event.startWriting p ∉ (write_recording_to_file cfg transport s).2 := by
  cases transport with
  | ok u =>
    by_cases hc : (truthy cfg.email_username && truthy cfg.recipient &&
        truthy cfg.email_password) = true <;>
      by_cases hd : cfg.delete_local_recordings = true <;>
      by_cases hs : cfg.snapshot_only = true <;>
      simp_all [write_recording_to_file, upload_file, send_email, send_email_attempt,
        delete_recording]
  | error e =>
    by_cases hc : (truthy cfg.email_username && truthy cfg.recipient &&
        truthy cfg.email_password) = true <;>
      by_cases hd : cfg.delete_local_recordings = true <;>
      by_cases hs : cfg.snapshot_only = true <;>
      simp_all [write_recording_to_file, upload_file, send_email, send_email_attempt,
        delete_recording]

/-- C3: while a session is active, a tick whose score exceeds the
threshold never issues a second `startWriting` command and never opens a
new session — the session start timestamp is either unchanged or cleared
by a finalization, never replaced by a fresh one. -/
theorem C3_no_second_session (cfg : Config) (transport : Except SmtpError Unit)
    (s : DetectorState) (now d : Q) (p : ArtifactPath)
    (henc : s.encoding = true) (hmotion : cfg.min_pixel_diff < d) :
    Event.startWriting p ∉ (tick cfg transport s now d).2 ∧
    ((tick cfg transport s now d).1.start_time_of_last_recording =
        s.start_time_of_last_recording ∨
      (tick cfg transport s now d).1.start_time_of_last_recording = none) := by
  have hw := startWriting_not_in_write_recording cfg transport s p
  by_cases hmax : is_max_recording_length_exceeded cfg s now = true
  · constructor
    · simp [tick, henc, hmax, hw]
    · right
      simp [tick, henc, hmax, write_recording_to_file]
  · by_cases hidle : is_max_time_since_last_motion_detection_exceeded s now = true
    · constructor
      · simp [tick, henc, hmax, hidle, hw]
      · right
        simp [tick, henc, hmax, hidle, write_recording_to_file]
    · constructor
      · simp [tick, henc, hmax, hidle]
      · left
        simp [tick, henc, hmax, hidle]

/-- The configuration of the testable state-machine properties:
threshold 7.2, no max-length cap, no delivery, no deletion. -/
def base_config : Config :=
  { min_pixel_diff := 7.2
    max_recording_length_seconds := 0
    snapshot_only := false
    delete_local_recordings := false
    email_username := none
    recipient := none
    email_password := none }

/-- Witness for C3: a tick with score 8 > 7.2 while recording. -/
theorem C3_no_second_session_witness :
    Event.startWriting (ArtifactPath.video (some 0)) ∉
      (tick base_config (Except.ok ())
        ⟨true, some 0, some 0⟩ 1 8).2 ∧
    ((tick base_config (Except.ok ()) ⟨true, some 0, some 0⟩ 1 8).1.start_time_of_last_recording =
        (⟨true, some 0, some 0⟩ : DetectorState).start_time_of_last_recording ∨
      (tick base_config (Except.ok ())
        ⟨true, some 0, some 0⟩ 1 8).1.start_time_of_last_recording = none) :=
  C3_no_second_session base_config (Except.ok ()) ⟨true, some 0, some 0⟩ 1 8
    (ArtifactPath.video (some 0)) rfl (by norm_num [base_config])

/-- From Idle, a tick with a score above the threshold opens a session:
start and last-motion timestamps are set to `now` and a `startWriting`
command is issued. -/
theorem tick_start_from_idle (cfg : Config) (transport : Except SmtpError Unit)
    (now d : Q) (hd : cfg.min_pixel_diff < d) :
    tick cfg transport idle_state now d =
      (⟨true, some now, some now⟩,
       [Event.logInfo, Event.startWriting (ArtifactPath.video (some now)),
        Event.movementStart]) := by
  have h1 : decide (cfg.min_pixel_diff < d) = true := decide_eq_true hd
  have h2 : is_max_recording_length_exceeded cfg ⟨false, none, none⟩ now = false := by
    simp [is_max_recording_length_exceeded]
  simp [tick, h1, h2, idle_state, start_recording, get_recording_file_path]

/-- While recording, when the cap check is false and the idle gap since
the last-motion timestamp has not elapsed, a tick changes nothing — in
particular the last-motion timestamp is not refreshed, whatever the
score is. -/
theorem tick_recording_noop (cfg : Config) (transport : Except SmtpError Unit)
    (st0 lm now d : Q)
    (hmax : is_max_recording_length_exceeded cfg ⟨true, some st0, some lm⟩ now = false)
    (hidle : ¬ MAX_TIME_SINCE_LAST_MOTION_DETECTION_SECONDS < now - lm) :
    tick cfg transport ⟨true, some st0, some lm⟩ now d =
      (⟨true, some st0, some lm⟩, []) := by
  have h' := not_lt.mp hidle
  have h3 : is_max_time_since_last_motion_detection_exceeded
      ⟨true, some st0, some lm⟩ now = false := by
    simp [is_max_time_since_last_motion_detection_exceeded]
    linarith
  simp [tick, hmax, h3]

/-- While recording, when the cap check is false but the idle gap since
the last-motion timestamp has elapsed, the tick finalizes the session,
whatever the score is. -/
theorem tick_idle_stop (cfg : Config) (transport : Except SmtpError Unit)
    (st0 lm now d : Q)
    (hmax : is_max_recording_length_exceeded cfg ⟨true, some st0, some lm⟩ now = false)
    (hidle : MAX_TIME_SINCE_LAST_MOTION_DETECTION_SECONDS < now - lm) :
    tick cfg transport ⟨true, some st0, some lm⟩ now d =
      (⟨false, none, some lm⟩,
       Event.logInfo :: Event.movementEnd ::
         Event.captureSnapshot (ArtifactPath.snapshot (some st0)) :: Event.logInfo ::
         Event.stopWriting ::
         (if cfg.snapshot_only then
            upload_file cfg transport (ArtifactPath.snapshot (some st0))
          else upload_file cfg transport (ArtifactPath.video (some st0)))) := by
  have h3 : is_max_time_since_last_motion_detection_exceeded
      ⟨true, some st0, some lm⟩ now = true := by
    simp [is_max_time_since_last_motion_detection_exceeded]
    linarith
  simp [tick, hmax, h3, write_recording_to_file, get_recording_file_path,
    get_snapshot_file_path]

/-- The cap check is false whenever elapsed time since session start is
below the cap. -/
theorem max_not_exceeded_of_lt (cfg : Config) (st0 lm now : Q)
    (h : now - st0 < (cfg.max_recording_length_seconds : Q)) :
    is_max_recording_length_exceeded cfg ⟨true, some st0, some lm⟩ now = false := by
  have hd : decide ((cfg.max_recording_length_seconds : Q) ≤ now - st0) = false :=
    decide_eq_false (not_le.mpr h)
  simp [is_max_recording_length_exceeded, hd]

/-- C1: per the claim, a tick with an active session, score above
threshold and the cap not reached should refresh the last-motion
timestamp and never finalize.  The code violates both parts: the start
branch is guarded by `not self.__encoding`, so while recording the
last-motion timestamp is never refreshed, and once the (never-refreshed)
idle gap elapses the session is finalized even though the score is still
above the threshold.  This theorem evaluates the code at the failing
inputs: at `now = 2` the timestamp stays `0` instead of becoming `2`; at
`now = 6` the session is finalized despite score `8 > 7.2` and no cap. -/
theorem C1_no_refresh_and_finalize_despite_motion :
    ((tick base_config (Except.ok ()) ⟨true, some 0, some 0⟩ 2 8).1.encoding = true ∧
     (tick base_config (Except.ok ())
        ⟨true, some 0, some 0⟩ 2 8).1.time_of_last_motion_detection = some 0) ∧
    ((tick base_config (Except.ok ()) ⟨true, some 0, some 0⟩ 6 8).1.encoding = false ∧
     Event.stopWriting ∈ (tick base_config (Except.ok ()) ⟨true, some 0, some 0⟩ 6 8).2) := by
  have e2 := tick_recording_noop base_config (Except.ok ()) 0 0 2 8
    (by simp [is_max_recording_length_exceeded, base_config])
    (by norm_num [MAX_TIME_SINCE_LAST_MOTION_DETECTION_SECONDS])
  have e6 := tick_idle_stop base_config (Except.ok ()) 0 0 6 8
    (by simp [is_max_recording_length_exceeded, base_config])
    (by norm_num [MAX_TIME_SINCE_LAST_MOTION_DETECTION_SECONDS])
  rw [e2, e6]
  simp [upload_file, delete_recording, base_config, truthy]

/-- The configuration of claim C2: cap of 10 seconds. -/
def c2_config : Config :=
  { min_pixel_diff := 7.2
    max_recording_length_seconds := 10
    snapshot_only := false
    delete_local_recordings := false
    email_username := none
    recipient := none
    email_password := none }

/-- C2: per the claim, with a 10-second cap and the score above the
threshold on every tick, the session should be finalized exactly at or
after 10 seconds and not before.  The code violates this: because the
last-motion timestamp is never refreshed while recording, the idle-gap
check fires 6 seconds after the session start (elapsed > 5) and
finalizes the session well before the 10-second cap, despite continuous
motion.  This theorem evaluates the code on one-second ticks of score 8
from t = 0: the session is still active after the t = 5 tick and has
been finalized by the t = 6 tick. -/
theorem C2_finalized_before_cap :
    (run_ticks c2_config (Except.ok ()) idle_state
        [(0,8),(1,8),(2,8),(3,8),(4,8),(5,8)]).1.encoding = true ∧
    (run_ticks c2_config (Except.ok ()) idle_state
        [(0,8),(1,8),(2,8),(3,8),(4,8),(5,8),(6,8)]).1.encoding = false ∧
    Event.stopWriting ∈ (run_ticks c2_config (Except.ok ()) idle_state
        [(0,8),(1,8),(2,8),(3,8),(4,8),(5,8),(6,8)]).2 := by
  have hmot : c2_config.min_pixel_diff < (8:Q) := by norm_num [c2_config]
  have e0 := tick_start_from_idle c2_config (Except.ok ()) 0 8 hmot
  have n1 := tick_recording_noop c2_config (Except.ok ()) 0 0 1 8
    (max_not_exceeded_of_lt c2_config 0 0 1 (by norm_num [c2_config]))
    (by norm_num [MAX_TIME_SINCE_LAST_MOTION_DETECTION_SECONDS])
  have n2 := tick_recording_noop c2_config (Except.ok ()) 0 0 2 8
    (max_not_exceeded_of_lt c2_config 0 0 2 (by norm_num [c2_config]))
    (by norm_num [MAX_TIME_SINCE_LAST_MOTION_DETECTION_SECONDS])
  have n3 := tick_recording_noop c2_config (Except.ok ()) 0 0 3 8
    (max_not_exceeded_of_lt c2_config 0 0 3 (by norm_num [c2_config]))
    (by norm_num [MAX_TIME_SINCE_LAST_MOTION_DETECTION_SECONDS])
  have n4 := tick_recording_noop c2_config (Except.ok ()) 0 0 4 8
    (max_not_exceeded_of_lt c2_config 0 0 4 (by norm_num [c2_config]))
    (by norm_num [MAX_TIME_SINCE_LAST_MOTION_DETECTION_SECONDS])
  have n5 := tick_recording_noop c2_config (Except.ok ()) 0 0 5 8
    (max_not_exceeded_of_lt c2_config 0 0 5 (by norm_num [c2_config]))
    (by norm_num [MAX_TIME_SINCE_LAST_MOTION_DETECTION_SECONDS])
  have e6 := tick_idle_stop c2_config (Except.ok ()) 0 0 6 8
    (max_not_exceeded_of_lt c2_config 0 0 6 (by norm_num [c2_config]))
    (by norm_num [MAX_TIME_SINCE_LAST_MOTION_DETECTION_SECONDS])
  refine ⟨?_, ?_, ?_⟩ <;>
    simp [run_ticks, e0, n1, n2, n3, n4, n5, e6]

/-- From Idle, a tick with a score at or below the threshold changes
nothing. -/
theorem tick_idle_low (cfg : Config) (transport : Except SmtpError Unit) (now d : Q)
    (hd : ¬ cfg.min_pixel_diff < d) :
    tick cfg transport idle_state now d = (idle_state, []) := by
  have h1 : decide (cfg.min_pixel_diff < d) = false := decide_eq_false hd
  have h2 : is_max_recording_length_exceeded cfg ⟨false, none, none⟩ now = false := by
    simp [is_max_recording_length_exceeded]
  have h3 : is_max_time_since_last_motion_detection_exceeded ⟨false, none, none⟩ now = false := by
    simp [is_max_time_since_last_motion_detection_exceeded]
  simp [tick, h1, h2, h3, idle_state]

/-- C4: starting from Idle with threshold 7.2 and the 5-second idle gap,
feeding the score sequence [0, 0, 8, 8, 8] at monotone times whose total
advance is less than the idle gap, the machine transitions to Recording
on the third sample — opening a session with start timestamp `t3` and
issuing `startWriting` — and remains Recording through the fifth
sample. -/
theorem C4_starts_on_third_sample_stays_recording (transport : Except SmtpError Unit)
    (t1 t2 t3 t4 t5 : Q) (h12 : t1 ≤ t2) (h23 : t2 ≤ t3) (h34 : t3 ≤ t4) (h45 : t4 ≤ t5)
    (hspan : t5 - t1 < 5) :
    (run_ticks base_config transport idle_state [(t1,0),(t2,0)]).1 = idle_state ∧
    (run_ticks base_config transport idle_state [(t1,0),(t2,0),(t3,8)]).1 =
      ⟨true, some t3, some t3⟩ ∧
    Event.startWriting (ArtifactPath.video (some t3)) ∈
      (run_ticks base_config transport idle_state [(t1,0),(t2,0),(t3,8)]).2 ∧
    (run_ticks base_config transport idle_state [(t1,0),(t2,0),(t3,8),(t4,8)]).1 =
      ⟨true, some t3, some t3⟩ ∧
    (run_ticks base_config transport idle_state [(t1,0),(t2,0),(t3,8),(t4,8),(t5,8)]).1 =
      ⟨true, some t3, some t3⟩ := by
  have hlow : ¬ base_config.min_pixel_diff < (0:Q) := by norm_num [base_config]
  have hhigh : base_config.min_pixel_diff < (8:Q) := by norm_num [base_config]
  have e1 := tick_idle_low base_config transport t1 0 hlow
  have e2 := tick_idle_low base_config transport t2 0 hlow
  have e3 := tick_start_from_idle base_config transport t3 8 hhigh
  have hmax4 : is_max_recording_length_exceeded base_config ⟨true, some t3, some t3⟩ t4 = false := by
    simp [is_max_recording_length_exceeded, base_config]
  have hmax5 : is_max_recording_length_exceeded base_config ⟨true, some t3, some t3⟩ t5 = false := by
    simp [is_max_recording_length_exceeded, base_config]
  have hidle4 : ¬ MAX_TIME_SINCE_LAST_MOTION_DETECTION_SECONDS < t4 - t3 := by
    simp only [MAX_TIME_SINCE_LAST_MOTION_DETECTION_SECONDS]
    intro hcon
    linarith
  have hidle5 : ¬ MAX_TIME_SINCE_LAST_MOTION_DETECTION_SECONDS < t5 - t3 := by
    simp only [MAX_TIME_SINCE_LAST_MOTION_DETECTION_SECONDS]
    intro hcon
    linarith
  have e4 := tick_recording_noop base_config transport t3 t3 t4 8 hmax4 hidle4
  have e5 := tick_recording_noop base_config transport t3 t3 t5 8 hmax5 hidle5
  refine ⟨?_, ?_, ?_, ?_, ?_⟩ <;> simp [run_ticks, e1, e2, e3, e4, e5]

/-- Witness for C4 at the concrete clock 0, 1, 2, 3, 4. -/
theorem C4_starts_on_third_sample_stays_recording_witness :
    (run_ticks base_config (Except.ok ()) idle_state [(0,0),(1,0)]).1 = idle_state ∧
    (run_ticks base_config (Except.ok ()) idle_state [(0,0),(1,0),(2,8)]).1 =
      ⟨true, some 2, some 2⟩ ∧
    Event.startWriting (ArtifactPath.video (some 2)) ∈
      (run_ticks base_config (Except.ok ()) idle_state [(0,0),(1,0),(2,8)]).2 ∧
    (run_ticks base_config (Except.ok ()) idle_state [(0,0),(1,0),(2,8),(3,8)]).1 =
      ⟨true, some 2, some 2⟩ ∧
    (run_ticks base_config (Except.ok ()) idle_state [(0,0),(1,0),(2,8),(3,8),(4,8)]).1 =
      ⟨true, some 2, some 2⟩ :=
  C4_starts_on_third_sample_stays_recording (Except.ok ()) 0 1 2 3 4
    (by norm_num) (by norm_num) (by norm_num) (by norm_num) (by norm_num)

/-- C5 counterexample: after an exception in a loop iteration the
previous-frame state is retained, not discarded — it still holds the
stale pre-error frame instead of `none`. -/
theorem C5_counterexample_previous_frame_retained :
    (loop_iteration base_config (Except.ok ()) ⟨some [0], idle_state, []⟩
        (Except.error ()) 0).1.previous_frame = some [0] ∧
    (some [0] : Option (List Nat)) ≠ none := by
  exact ⟨rfl, by simp⟩

/-- C5 (amended): an exception in a loop iteration is logged and the
loop proceeds without terminating, but the previous-frame state is
retained unchanged (not discarded), so the next successfully captured
frame is differenced against the stale pre-error frame rather than
starting a fresh baseline. -/
theorem C5_error_logged_previous_frame_kept (cfg : Config)
    (transport : Except SmtpError Unit) (st : LoopState) (now now2 : Q)
    (frame prev : List Nat) (hprev : st.previous_frame = some prev) :
    loop_iteration cfg transport st (Except.error ()) now = (st, [Event.logError]) ∧
    (loop_iteration cfg transport st (Except.ok frame) now2).1.history =
      store_diff_history st.history (calculate_histogram_difference frame prev) := by
  constructor
  · rfl
  · simp [loop_iteration, hprev]

/-- Witness for the amended C5 at a concrete loop state. -/
theorem C5_error_logged_previous_frame_kept_witness :
    loop_iteration base_config (Except.ok ()) ⟨some [0], idle_state, []⟩
        (Except.error ()) 0 = (⟨some [0], idle_state, []⟩, [Event.logError]) ∧
    (loop_iteration base_config (Except.ok ()) ⟨some [0], idle_state, []⟩
        (Except.ok [1]) 1).1.history =
      store_diff_history ([] : List Q) (calculate_histogram_difference [1] [0]) :=
  C5_error_logged_previous_frame_kept base_config (Except.ok ())
    ⟨some [0], idle_state, []⟩ 0 1 [1] [0] rfl

end MotionDetector
